import Mathlib

/-!
Verification of `poly.py`, a CLI tool that computes and plots polynomial
learning-rate decay schedules with optional linear warmup.

The numeric schedule `calculate_lr_schedule` is embedded over the real
numbers; Python float exponentiation `(1 - progress)**power` with a float
exponent is modelled by real exponentiation (`Real.rpow`).  A second,
executable embedding over the rationals (`calculate_lr_schedule_checked`)
makes the two divisions of the source explicit: a division whose
denominator is zero is a runtime fault in Python, modelled as `none`.
The CLI-facing parts (argument record, filename generation, output-path
resolution, the no-argument help path of `main`) are embedded as plain
functions on an `Args` record mirroring `setup_parser`.
-/

/-- Embedding of `calculate_lr_schedule(t, total_steps, init_lr, final_lr,
power, warmup_steps)` from `poly.py`.  Linear warmup for `t < warmup_steps`,
then polynomial decay from `init_lr` to `final_lr`, clamped to `final_lr`
once `progress >= 1.0`. -/
noncomputable def calculate_lr_schedule (t total_steps init_lr final_lr power warmup_steps : ℝ) : ℝ :=
  if t < warmup_steps then
    init_lr * (t / warmup_steps)
  else
    let t_adjusted := t - warmup_steps
    let total_steps_adjusted := total_steps - warmup_steps
    let progress := t_adjusted / total_steps_adjusted
    if progress ≥ 1 then
      final_lr
    else
      let decay_factor := (1 - progress) ^ power
      let lr_range := init_lr - final_lr
      final_lr + lr_range * decay_factor

/-- Fault-aware embedding of `calculate_lr_schedule` over `ℚ`: each source
division returns `none` when its denominator is zero, which is Python's
`ZeroDivisionError` on scalar operands.  The exponent is restricted to a
natural number so the definition stays executable; which divisions occur
(the fault behaviour this definition is used for) does not depend on the
exponent. -/
def calculate_lr_schedule_checked (t total_steps init_lr final_lr : ℚ) (power : ℕ)
    (warmup_steps : ℚ) : Option ℚ :=
  if t < warmup_steps then
    if warmup_steps = 0 then none
    else some (init_lr * (t / warmup_steps))
  else
    let t_adjusted := t - warmup_steps
    let total_steps_adjusted := total_steps - warmup_steps
    if total_steps_adjusted = 0 then none
    else
      let progress := t_adjusted / total_steps_adjusted
      if progress ≥ 1 then
        some final_lr
      else
        let decay_factor := (1 - progress) ^ power
        let lr_range := init_lr - final_lr
        some (final_lr + lr_range * decay_factor)

/-- The 1000 sampled time points `np.linspace(0, steps, 1000)` used by
`plot_schedules`: the i-th point is `steps * i / 999`. -/
def sample_points (steps : ℚ) : List ℚ :=
  (List.range 1000).map (fun (i : ℕ) => steps * (i : ℚ) / 999)

/-- The parsed command-line arguments of `setup_parser` in `poly.py`.
Float-valued fields are carried as rationals, int-valued fields as
integers; `nstyle` is the `--notation` choice (`"s"` or `"d"`). -/
structure Args where
  powers : List ℚ
  learning_rate : ℚ
  lr_end : ℚ
  steps : ℤ
  warmup : ℤ
  output : String
  dpi : ℤ
  log_scale : String
  nstyle : String
deriving DecidableEq, Repr

/-- The parser defaults of `setup_parser`: powers
`[0.1, 0.3, 0.5, 0.8, 1, 1.5, 2, 3, 5, 10]`, learning rate `1e-4`, final
rate `1e-7`, 4000 steps, 400 warmup steps, output `lr_schedule.jpg`,
300 dpi, linear scale, scientific notation. -/
def defaultArgs : Args :=
  ⟨[1/10, 3/10, 1/2, 4/5, 1, 3/2, 2, 3, 5, 10],
   1/10000, 1/10000000, 4000, 400, "lr_schedule.jpg", 300, "none", "s"⟩

/-- Fractional decimal digits of `r` (assumed in `[0,1)`), as produced by
Python's decimal rendering of a float with a terminating decimal
expansion; `fuel` bounds the number of digits emitted. -/
def fracDigits (fuel : ℕ) (r : ℚ) : String :=
  match fuel with
  | 0 => ""
  | Nat.succ fuel =>
    let r10 := r * 10
    let d := (⌊r10⌋ : ℤ)
    let rest := r10 - (d : ℚ)
    toString d.toNat ++ (if rest = 0 then "" else fracDigits fuel rest)

/-- Python `str()` on a float value, modelled for values with a
terminating decimal expansion (all powers accepted on the command line are
such): sign, integer part, a dot, and at least one fractional digit. -/
def pyFloatStr (q : ℚ) : String :=
  let sign := if q < 0 then "-" else ""
  let a := |q|
  let ip := (⌊a⌋ : ℤ).toNat
  let fr := a - (⌊a⌋ : ℤ)
  let fracPart := if fr = 0 then "0" else fracDigits 32 fr
  sign ++ toString ip ++ "." ++ fracPart

/-- Bring `q` (positive) into `[1, 10)` by repeated scaling by 10,
returning the scaled mantissa and the accumulated decimal exponent. -/
def sciNormalize (fuel : ℕ) (q : ℚ) (e : ℤ) : ℚ × ℤ :=
  match fuel with
  | 0 => (q, e)
  | Nat.succ fuel =>
    if q < 1 then sciNormalize fuel (q * 10) (e - 1)
    else if 10 ≤ q then sciNormalize fuel (q / 10) (e + 1)
    else (q, e)

/-- Round to the nearest integer, ties to even, as Python's float
formatting does. -/
def roundHalfEven (r : ℚ) : ℤ :=
  let fl := (⌊r⌋ : ℤ)
  let fr := r - (fl : ℚ)
  if fr < 1/2 then fl
  else if 1/2 < fr then fl + 1
  else if fl % 2 = 0 then fl else fl + 1

/-- The exponent field of Python's `e` format: an explicit sign and at
least two digits. -/
def expPad (e : ℤ) : String :=
  let s := toString e.natAbs
  (if e < 0 then "-" else "+") ++ (if e.natAbs < 10 then "0" ++ s else s)

/-- Python `f'{q:.0e}'`: one mantissa digit in scientific notation, e.g.
`1e-04` for `0.0001` and `0e+00` for `0`. -/
def pySci0 (q : ℚ) : String :=
  if q = 0 then "0e+00"
  else
    let sign := if q < 0 then "-" else ""
    let me := sciNormalize 64 |q| 0
    let d := roundHalfEven me.1
    let de := if d = 10 then ((1 : ℤ), me.2 + 1) else (d, me.2)
    sign ++ toString de.1.toNat ++ "e" ++ expPad de.2

/-- Embedding of `generate_filename(args)` from `poly.py`: a descriptive
filename encoding all parameters in order of importance. -/
def generate_filename (a : Args) : String :=
  let powers_str := "p" ++ String.intercalate "-" (a.powers.map pyFloatStr)
  let lr_str := "lr" ++ pySci0 a.learning_rate
  let lr_end_str := "lre" ++ pySci0 a.lr_end
  let steps_str := "s" ++ toString a.steps
  let warmup_str := "w" ++ toString a.warmup
  let scale_str := "scale_" ++ a.log_scale
  let nstyle_str := "not_" ++ a.nstyle
  let dpi_str := "dpi" ++ toString a.dpi
  "lr_decay_" ++ powers_str ++ "_" ++ lr_str ++ "_" ++ lr_end_str ++ "_" ++ steps_str ++
    "_" ++ warmup_str ++ "_" ++ scale_str ++ "_" ++ nstyle_str ++ "_" ++ dpi_str ++ ".jpg"

/-- argparse semantics for the `-o` (`--output`) flag: the `output` field of
the parsed arguments is the supplied string if the user passed one, and
the default `lr_schedule.jpg` otherwise. -/
def parsed_output (supplied : Option String) : String :=
  supplied.getD "lr_schedule.jpg"

/-- The output-path resolution at the top of `plot_schedules`: when
`args.output` equals the default `lr_schedule.jpg`, it is replaced by the
generated filename; otherwise it is used as is. -/
def resolve_output (a : Args) : String :=
  if a.output = "lr_schedule.jpg" then generate_filename a else a.output

/-- The two observable outcomes of `main`: print help and exit with the
given code without computing or writing anything, or proceed to parse the
arguments and plot. -/
inductive MainOutcome where
  | helpExit (code : ℕ) : MainOutcome
  | plot (args : Args) : MainOutcome
deriving DecidableEq, Repr

/-- Control flow of `main` in `poly.py`: `sys.argv` holds the program name
followed by the user's arguments, so `len(sys.argv) == 1` means no
arguments were given, in which case help is printed and the process exits
with code 1; otherwise the parsed arguments are plotted.  The parse result
is passed in as `parsed`. -/
def main_flow (argv : List String) (parsed : Args) : MainOutcome :=
  if argv.length = 1 then MainOutcome.helpExit 1 else MainOutcome.plot parsed

/-! ## Branch lemmas for the schedule function -/

/-- During warmup (`t < warmup_steps`) the schedule is `init_lr * (t / warmup_steps)`. -/
theorem calc_warmup_eq (t total_steps init_lr final_lr power warmup_steps : ℝ)
    (h : t < warmup_steps) :
    calculate_lr_schedule t total_steps init_lr final_lr power warmup_steps
      = init_lr * (t / warmup_steps) := by
  simp [calculate_lr_schedule, h]

/-- Once `progress ≥ 1`, the schedule is clamped to exactly `final_lr`. -/
theorem calc_clamp_eq (t total_steps init_lr final_lr power warmup_steps : ℝ)
    (h : warmup_steps ≤ t) (hge : 1 ≤ (t - warmup_steps) / (total_steps - warmup_steps)) :
    calculate_lr_schedule t total_steps init_lr final_lr power warmup_steps = final_lr := by
  simp [calculate_lr_schedule, not_lt.mpr h, ge_iff_le, hge]

/-- In the decay region (`warmup_steps ≤ t`, `progress < 1`) the schedule is the
polynomial decay formula. -/
theorem calc_decay_eq (t total_steps init_lr final_lr power warmup_steps : ℝ)
    (h : warmup_steps ≤ t) (hlt : (t - warmup_steps) / (total_steps - warmup_steps) < 1) :
    calculate_lr_schedule t total_steps init_lr final_lr power warmup_steps
      = final_lr + (init_lr - final_lr)
          * (1 - (t - warmup_steps) / (total_steps - warmup_steps)) ^ power := by
  simp [calculate_lr_schedule, not_lt.mpr h, ge_iff_le, not_le.mpr hlt]

/-! ## Claim theorems -/

/-- C1: for every `t ≥ 0`, with `warmup_steps < total_steps`, the schedule returns
`init_lr * (t / warmup_steps)` when `t < warmup_steps`; otherwise, with
`progress = (t - warmup_steps) / (total_steps - warmup_steps)`, it returns
exactly `final_lr` when `progress ≥ 1` and
`final_lr + (init_lr - final_lr) * (1 - progress) ^ power` when `progress < 1`. -/
theorem calculate_lr_schedule_spec (t total_steps init_lr final_lr power warmup_steps : ℝ)
    (hw : warmup_steps < total_steps) (ht : 0 ≤ t) :
    (t < warmup_steps →
      calculate_lr_schedule t total_steps init_lr final_lr power warmup_steps
        = init_lr * (t / warmup_steps)) ∧
    (warmup_steps ≤ t →
      (1 ≤ (t - warmup_steps) / (total_steps - warmup_steps) →
        calculate_lr_schedule t total_steps init_lr final_lr power warmup_steps = final_lr) ∧
      ((t - warmup_steps) / (total_steps - warmup_steps) < 1 →
        calculate_lr_schedule t total_steps init_lr final_lr power warmup_steps
          = final_lr + (init_lr - final_lr)
              * (1 - (t - warmup_steps) / (total_steps - warmup_steps)) ^ power)) :=
  ⟨fun h => calc_warmup_eq t total_steps init_lr final_lr power warmup_steps h,
   fun h => ⟨fun hge => calc_clamp_eq t total_steps init_lr final_lr power warmup_steps h hge,
             fun hlt => calc_decay_eq t total_steps init_lr final_lr power warmup_steps h hlt⟩⟩

/-- C1 witness: the decay branch at `t = 3`, `total = 4`, `warmup = 2`,
`init = 1`, `final = 0`, `power = 1`. -/
theorem calculate_lr_schedule_spec_witness :
    (2:ℝ) < 4 ∧ (0:ℝ) ≤ 3 ∧ (2:ℝ) ≤ 3 ∧ ((3:ℝ) - 2) / (4 - 2) < 1 ∧
      calculate_lr_schedule 3 4 1 0 1 2
        = 0 + (1 - 0) * (1 - ((3:ℝ) - 2) / (4 - 2)) ^ (1:ℝ) :=
  ⟨by norm_num, by norm_num, by norm_num, by norm_num,
    ((calculate_lr_schedule_spec 3 4 1 0 1 2 (by norm_num) (by norm_num)).2
      (by norm_num)).2 (by norm_num)⟩

/-- C4: with `warmup_steps < total_steps`, at `t = total_steps` the schedule
returns `final_lr` exactly, via the `progress ≥ 1` clamp. -/
theorem lr_at_total_eq_final (total_steps init_lr final_lr power warmup_steps : ℝ)
    (hw : warmup_steps < total_steps) :
    calculate_lr_schedule total_steps total_steps init_lr final_lr power warmup_steps
      = final_lr := by
  have hne : total_steps - warmup_steps ≠ 0 := sub_ne_zero.mpr (ne_of_gt hw)
  exact calc_clamp_eq _ _ _ _ _ _ hw.le (le_of_eq (div_self hne).symm)

/-- C4 witness: at `total = 4`, `warmup = 2`, `init = 1`, `final = 1/100`,
`power = 2`, the rate at `t = 4` is exactly `1/100`. -/
theorem lr_at_total_eq_final_witness :
    (2:ℝ) < 4 ∧ calculate_lr_schedule 4 4 1 (1/100) 2 2 = 1/100 :=
  ⟨by norm_num, lr_at_total_eq_final 4 1 (1/100) 2 2 (by norm_num)⟩

/-- C5: with `warmup_steps < total_steps` and any `power`, at `t = warmup_steps`
the schedule returns exactly `init_lr`: the decay branch has `progress = 0`, so
`final_lr + (init_lr - final_lr) * 1 ^ power = init_lr`. -/
theorem lr_at_warmup_eq_init (total_steps init_lr final_lr power warmup_steps : ℝ)
    (hw : warmup_steps < total_steps) :
    calculate_lr_schedule warmup_steps total_steps init_lr final_lr power warmup_steps
      = init_lr := by
  have h0 : (warmup_steps - warmup_steps) / (total_steps - warmup_steps) = 0 := by
    rw [sub_self, zero_div]
  rw [calc_decay_eq _ _ _ _ _ _ le_rfl (by rw [h0]; norm_num), h0, sub_zero, Real.one_rpow]
  ring

/-- C5 witness: at `total = 4`, `warmup = 2`, `init = 1`, `final = 0`,
`power = 1/2`, the rate at `t = 2` is exactly `1`. -/
theorem lr_at_warmup_eq_init_witness :
    (2:ℝ) < 4 ∧ calculate_lr_schedule 2 4 1 0 (1/2) 2 = 1 :=
  ⟨by norm_num, lr_at_warmup_eq_init 4 1 0 (1/2) 2 (by norm_num)⟩

/-- C6: for `power = 1` the decay segment is affine in `t`: on
`warmup_steps ≤ t ≤ total_steps` the rate equals
`init_lr + (final_lr - init_lr) * (t - warmup_steps) / (total_steps - warmup_steps)`,
the linear interpolation between `init_lr` and `final_lr`. -/
theorem lr_decay_linear_power_one (t total_steps init_lr final_lr warmup_steps : ℝ)
    (hw : warmup_steps < total_steps) (h1 : warmup_steps ≤ t) (h2 : t ≤ total_steps) :
    calculate_lr_schedule t total_steps init_lr final_lr 1 warmup_steps
      = init_lr + (final_lr - init_lr) * ((t - warmup_steps) / (total_steps - warmup_steps)) := by
  have hd : 0 < total_steps - warmup_steps := sub_pos.mpr hw
  have hple : (t - warmup_steps) / (total_steps - warmup_steps) ≤ 1 := by
    rw [div_le_one hd]; linarith
  rcases le_or_lt 1 ((t - warmup_steps) / (total_steps - warmup_steps)) with hge | hlt
  · have hpeq : (t - warmup_steps) / (total_steps - warmup_steps) = 1 := le_antisymm hple hge
    rw [calc_clamp_eq _ _ _ _ _ _ h1 hge, hpeq]
    ring
  · rw [calc_decay_eq _ _ _ _ _ _ h1 hlt, Real.rpow_one]
    ring

/-- C6 witness: at `t = 5`, `total = 8`, `warmup = 2`, `init = 2`, `final = 1`,
the rate is the midpoint interpolation `2 + (1 - 2) * ((5 - 2) / (8 - 2))`. -/
theorem lr_decay_linear_power_one_witness :
    (2:ℝ) < 8 ∧ (2:ℝ) ≤ 5 ∧ (5:ℝ) ≤ 8 ∧
      calculate_lr_schedule 5 8 2 1 1 2
        = 2 + (1 - 2) * (((5:ℝ) - 2) / (8 - 2)) :=
  ⟨by norm_num, by norm_num, by norm_num,
    lr_decay_linear_power_one 5 8 2 1 2 (by norm_num) (by norm_num) (by norm_num)⟩

/-- C10: with `warmup_steps < total_steps`, `final_lr ≤ init_lr` and
`0 ≤ power`, for every `t` in `[warmup_steps, total_steps]` the returned rate
lies between `final_lr` and `init_lr`, because the decay factor
`(1 - progress) ^ power` stays in `[0, 1]`. -/
theorem lr_bounded_between_final_and_init (t total_steps init_lr final_lr power warmup_steps : ℝ)
    (hw : warmup_steps < total_steps) (hfi : final_lr ≤ init_lr) (hp : 0 ≤ power)
    (h1 : warmup_steps ≤ t) (h2 : t ≤ total_steps) :
    final_lr ≤ calculate_lr_schedule t total_steps init_lr final_lr power warmup_steps ∧
      calculate_lr_schedule t total_steps init_lr final_lr power warmup_steps ≤ init_lr := by
  have hd : 0 < total_steps - warmup_steps := sub_pos.mpr hw
  rcases le_or_lt 1 ((t - warmup_steps) / (total_steps - warmup_steps)) with hge | hlt
  · rw [calc_clamp_eq _ _ _ _ _ _ h1 hge]
    exact ⟨le_rfl, hfi⟩
  · have hp0 : 0 ≤ (t - warmup_steps) / (total_steps - warmup_steps) :=
      div_nonneg (by linarith) hd.le
    have hb0 : 0 ≤ 1 - (t - warmup_steps) / (total_steps - warmup_steps) := by linarith
    have hb1 : 1 - (t - warmup_steps) / (total_steps - warmup_steps) ≤ 1 := by linarith
    have hdf0 : 0 ≤ (1 - (t - warmup_steps) / (total_steps - warmup_steps)) ^ power :=
      Real.rpow_nonneg hb0 power
    have hdf1 : (1 - (t - warmup_steps) / (total_steps - warmup_steps)) ^ power ≤ 1 :=
      Real.rpow_le_one hb0 hb1 hp
    rw [calc_decay_eq _ _ _ _ _ _ h1 hlt]
    have hr0 : 0 ≤ init_lr - final_lr := by linarith
    exact ⟨by nlinarith, by nlinarith⟩

/-- C10 witness: at `t = 3`, `total = 5`, `warmup = 1`, `init = 1`, `final = 0`,
`power = 2`, the rate lies in `[0, 1]`. -/
theorem lr_bounded_between_final_and_init_witness :
    (1:ℝ) < 5 ∧ (0:ℝ) ≤ 1 ∧ (0:ℝ) ≤ 2 ∧ (1:ℝ) ≤ 3 ∧ (3:ℝ) ≤ 5 ∧
      ((0:ℝ) ≤ calculate_lr_schedule 3 5 1 0 2 1 ∧ calculate_lr_schedule 3 5 1 0 2 1 ≤ 1) :=
  ⟨by norm_num, by norm_num, by norm_num, by norm_num, by norm_num,
    lr_bounded_between_final_and_init 3 5 1 0 2 1 (by norm_num) (by norm_num) (by norm_num)
      (by norm_num) (by norm_num)⟩

/-- C2 counterexample: the configuration `steps = 10`, `warmup = 20` has
`warmup ≥ steps`, yet every one of the 1000 sampled time points (including
`t = steps`) lies strictly below `warmup`, is handled by the warmup branch
with the nonzero divisor `20`, and evaluates without any arithmetic fault. -/
theorem warmup_gt_total_no_fault :
    ((20:ℚ) ≥ 10) ∧
      ((sample_points 10).all
          (fun s => (calculate_lr_schedule_checked s 10 (1/10000) (1/10000000) 1 20).isSome)
        = true) := by
  refine ⟨by norm_num, ?_⟩
  rw [List.all_eq_true]
  intro s hs
  rw [sample_points] at hs
  rcases List.mem_map.mp hs with ⟨i, hi, rfl⟩
  have hi' : (i:ℚ) ≤ 999 := by
    have h1 : i ≤ 999 := by
      have h2 : i < 1000 := List.mem_range.mp hi
      omega
    exact_mod_cast h1
  have hlt : ((10:ℚ) * i / 999) < 20 := by
    rw [div_lt_iff₀ (by norm_num : (0:ℚ) < 999)]
    nlinarith
  rw [calculate_lr_schedule_checked, if_pos hlt, if_neg (by norm_num : (20:ℚ) ≠ 0)]
  rfl

/-- C2 amended: only the degenerate configuration `warmup_steps = total_steps`
faults: there, evaluating the schedule at the sampled point `t = total_steps`
reaches the decay branch and divides by `total_steps - warmup_steps = 0`
(Python `ZeroDivisionError`); for `warmup > total_steps`, all sampled points
stay in the warmup branch and no fault occurs. -/
theorem warmup_eq_total_div_by_zero (steps init_lr final_lr : ℚ) (power : ℕ) :
    calculate_lr_schedule_checked steps steps init_lr final_lr power steps = none := by
  rw [calculate_lr_schedule_checked, if_neg (lt_irrefl steps)]
  simp

/-- C3 counterexample: an invocation that explicitly supplies the output path
`lr_schedule.jpg` (which coincides with the parser default) does not get the
supplied path: `plot_schedules` compares `args.output` against the default
string, so it replaces the explicitly supplied path with the generated
filename. -/
theorem explicit_default_output_not_used :
    resolve_output
        (Args.mk [] 0 0 0 0 (parsed_output (some "lr_schedule.jpg")) 0 "none" "s")
      ≠ parsed_output (some "lr_schedule.jpg") := by
  decide

/-- C3 amended: the generated filename is used exactly when the `output` field
equals the default string `lr_schedule.jpg` — whether that value was defaulted
or explicitly supplied; a supplied path is used as-is only when it differs
from the default. -/
theorem resolve_output_spec (a : Args) :
    (a.output ≠ "lr_schedule.jpg" → resolve_output a = a.output) ∧
    (a.output = "lr_schedule.jpg" → resolve_output a = generate_filename a) :=
  ⟨fun h => by rw [resolve_output, if_neg h],
   fun h => by rw [resolve_output, if_pos h]⟩

/-- C3 witness: a distinct supplied path `out.png` is used as-is, and the
default path is replaced by the generated filename. -/
theorem resolve_output_spec_witness :
    ("out.png" ≠ "lr_schedule.jpg" ∧
      resolve_output (Args.mk [] 0 0 0 0 "out.png" 0 "none" "s") = "out.png") ∧
    ("lr_schedule.jpg" = "lr_schedule.jpg" ∧
      resolve_output (Args.mk [] 1 0 0 0 "lr_schedule.jpg" 0 "none" "s")
        = generate_filename (Args.mk [] 1 0 0 0 "lr_schedule.jpg" 0 "none" "s")) :=
  ⟨⟨by decide, (resolve_output_spec (Args.mk [] 0 0 0 0 "out.png" 0 "none" "s")).1 (by decide)⟩,
   ⟨rfl, (resolve_output_spec (Args.mk [] 1 0 0 0 "lr_schedule.jpg" 0 "none" "s")).2 rfl⟩⟩

/-- C7: `generate_filename` is a deterministic pure function of the
configuration fields it encodes (powers, learning rates, steps, warmup,
scale, notation choice, dpi): any two argument records agreeing on those
fields produce the same filename string. -/
theorem generate_filename_deterministic (a b : Args)
    (hp : a.powers = b.powers) (hlr : a.learning_rate = b.learning_rate)
    (hle : a.lr_end = b.lr_end) (hs : a.steps = b.steps) (hw : a.warmup = b.warmup)
    (hsc : a.log_scale = b.log_scale) (hn : a.nstyle = b.nstyle) (hd : a.dpi = b.dpi) :
    generate_filename a = generate_filename b := by
  simp only [generate_filename]
  rw [hp, hlr, hle, hs, hw, hsc, hn, hd]

/-- C7 witness: two runs on the default configuration (one of them with a
different `output` field, which the generator does not read) produce the same
filename. -/
theorem generate_filename_deterministic_witness :
    generate_filename defaultArgs
      = generate_filename
          (Args.mk [1/10, 3/10, 1/2, 4/5, 1, 3/2, 2, 3, 5, 10]
            (1/10000) (1/10000000) 4000 400 "out.jpg" 300 "none" "s") :=
  generate_filename_deterministic _ _ rfl rfl rfl rfl rfl rfl rfl rfl

/-- C8: invoked with no command-line arguments (`sys.argv` holds only the
program name), `main` prints the help text and exits with code 1; the
`helpExit` outcome carries no parsed arguments, no schedule computation and
no file output. -/
theorem no_args_prints_help_exit1 (argv : List String) (parsed : Args)
    (h : argv.length = 1) :
    main_flow argv parsed = MainOutcome.helpExit 1 := by
  rw [main_flow, if_pos h]

/-- C8 witness: the bare invocation `poly.py`. -/
theorem no_args_prints_help_exit1_witness :
    (["poly.py"].length = 1) ∧ main_flow ["poly.py"] defaultArgs = MainOutcome.helpExit 1 :=
  ⟨rfl, no_args_prints_help_exit1 ["poly.py"] defaultArgs rfl⟩

/-- C9: when `warmup_steps = 0`, any `t ≥ 0` fails the test `t < warmup_steps`,
so the warmup branch — and with it the division by `warmup_steps` — is
unreachable and evaluation succeeds (given `total_steps > 0`); moreover at
`t = 0` the decay branch has `progress = 0` and returns exactly `init_lr`. -/
theorem warmup_zero_no_warmup_division (t_q total_q init_q final_q : ℚ) (pn : ℕ)
    (total_steps init_lr final_lr power : ℝ)
    (ht : 0 ≤ t_q) (htq : 0 < total_q) (htot : 0 < total_steps) :
    (calculate_lr_schedule_checked t_q total_q init_q final_q pn 0).isSome = true ∧
      calculate_lr_schedule 0 total_steps init_lr final_lr power 0 = init_lr := by
  constructor
  · rw [calculate_lr_schedule_checked, if_neg (not_lt.mpr ht)]
    simp only [sub_zero]
    rw [if_neg (ne_of_gt htq)]
    split <;> rfl
  · have h0 : ((0:ℝ) - 0) / (total_steps - 0) = 0 := by simp
    rw [calc_decay_eq 0 total_steps init_lr final_lr power 0 le_rfl (by rw [h0]; norm_num),
      h0, sub_zero, Real.one_rpow]
    ring

/-- C9 witness: `warmup = 0`, `t = 5`, `total = 10` evaluates without a fault,
and the rate at `t = 0` is exactly the initial rate. -/
theorem warmup_zero_no_warmup_division_witness :
    (0:ℚ) ≤ 5 ∧ (0:ℚ) < 10 ∧ (0:ℝ) < 10 ∧
      ((calculate_lr_schedule_checked 5 10 1 0 1 0).isSome = true ∧
        calculate_lr_schedule 0 10 1 0 2 0 = 1) :=
  ⟨by norm_num, by norm_num, by norm_num,
    warmup_zero_no_warmup_division 5 10 1 0 1 10 1 0 2 (by norm_num) (by norm_num) (by norm_num)⟩
